import Mathlib

/-!
# AMG8833 thermal camera driver: embedding and verified properties

A shallow embedding of `amg8833.go`.

* Go `byte` and `uint16` values are natural numbers; every place where the Go
  code computes in 8-bit or 16-bit arithmetic carries an explicit `% 256` or
  `% 65536`.
* Go `float64` values are rationals.  Every float the driver produces is an
  integer below `2^11` (possibly negated) scaled by `1/4`; such numbers and
  the operations producing them are exact in binary64, so the rational value
  is the float value.
* The I2C device is an external collaborator.  It is modelled by its
  responses as a function of the history of register transactions performed
  so far, and the driver threads that history explicitly.
* A Go `panic` is the `panicked` outcome.
-/

namespace AMG8833

/-! ## Constants -/

/-- Default I2C address. -/
def AMG88xxADDR : Nat := 0x69
/-- Power control register. -/
def AMG88xxPCTL : Nat := 0x00
/-- Reset register. -/
def AMG88xxRST : Nat := 0x01
/-- Frame rate register. -/
def AMG88xxFPSC : Nat := 0x02
/-- Interrupt control register. -/
def AMG88xxINTC : Nat := 0x03
/-- Temperature registers 0x80 - 0xFF. -/
def AMG88xxPixelOffset : Nat := 0x80
/-- Number of pixels. -/
def AMG88xxPixelArraySize : Nat := 64
/-- Pixel conversion factor, the untyped Go constant `.25`. -/
def AMG88xxPixelTempConversion : ℚ := 1 / 4
/-- Thermistor conversion factor, the untyped Go constant `.0625`. -/
def AMG88xxThermistorConversion : ℚ := 1 / 16

/-! ## The bus -/

/-- A Go `error` value. -/
abbrev GoError := String

/-- One register transaction on the bus. -/
inductive BusOp where
  /-- The call `ReadReg(reg, buf)` with `len(buf) = n`. -/
  | read (reg : Nat) (n : Nat)
  /-- The call `WriteReg(reg, data)`. -/
  | write (reg : Nat) (data : List Nat)
  deriving DecidableEq, Repr

/-- The register transactions performed so far, oldest first. -/
abbrev Trace := List BusOp

/-- The external I2C collaborator (`golang.org/x/exp/io/i2c`), given by its
responses.  Each response may depend on all earlier register transactions. -/
structure I2CDevice where
  /-- The call `i2c.Open(&i2c.Devfs{Dev: dev}, addr)`: `none` is a nil error. -/
  Open : Trace → String → Nat → Option GoError
  /-- The call `WriteReg(reg, data)`: `none` is a nil error. -/
  WriteReg : Trace → Nat → List Nat → Option GoError
  /-- The call `ReadReg(reg, buf)` on a one-byte buffer: the content of
  `buf[0]` after the call, and the returned error. -/
  ReadReg : Trace → Nat → Nat × Option GoError

/-! ## Driver state -/

/-- The type `Opts`. -/
structure Opts where
  Device : String
  Mode : Nat
  Reset : Nat
  Disable : Nat
  FPS : Nat
  deriving DecidableEq, Repr

/-- The type `AMG88xx`: the four cached bytes.  The `dev` field is the handle
on the single modelled device and carries no data. -/
structure AMG88xx where
  mode : Nat
  reset : Nat
  disable : Nat
  fps : Nat
  deriving DecidableEq, Repr

/-- How a call ends: it returns a value, or it panics with an error. -/
inductive Outcome (α : Type) where
  | returned (a : α)
  | panicked (e : GoError)
  deriving DecidableEq, Repr

/-- The state after a setter call: the driver struct, the bus history, and
whether the call returned or panicked. -/
structure Exec where
  amg : AMG88xx
  trace : Trace
  outcome : Outcome Unit
  deriving DecidableEq, Repr

/-! ## Setters -/

/-- The method `DisableInterrupts`. -/
def DisableInterrupts (dev : I2CDevice) (amg : AMG88xx) (t : Trace) (disable : Nat) : Exec :=
  let write := [disable ||| amg.disable]
  match dev.WriteReg t AMG88xxINTC write with
  | some err => ⟨amg, t ++ [BusOp.write AMG88xxINTC write], Outcome.panicked err⟩
  | none =>
    ⟨{ amg with disable := disable }, t ++ [BusOp.write AMG88xxINTC write], Outcome.returned ()⟩

/-- The method `Reset`. -/
def Reset (dev : I2CDevice) (amg : AMG88xx) (t : Trace) (reset : Nat) : Exec :=
  let write := [reset ||| amg.reset]
  match dev.WriteReg t AMG88xxRST write with
  | some err => ⟨amg, t ++ [BusOp.write AMG88xxRST write], Outcome.panicked err⟩
  | none =>
    ⟨{ amg with reset := reset }, t ++ [BusOp.write AMG88xxRST write], Outcome.returned ()⟩

/-- The method `SetMode`. -/
def SetMode (dev : I2CDevice) (amg : AMG88xx) (t : Trace) (mode : Nat) : Exec :=
  let write := [mode ||| amg.mode]
  match dev.WriteReg t AMG88xxPCTL write with
  | some err => ⟨amg, t ++ [BusOp.write AMG88xxPCTL write], Outcome.panicked err⟩
  | none =>
    ⟨{ amg with mode := mode }, t ++ [BusOp.write AMG88xxPCTL write], Outcome.returned ()⟩

/-- The method `SetFPS`. -/
def SetFPS (dev : I2CDevice) (amg : AMG88xx) (t : Trace) (fps : Nat) : Exec :=
  let write := [fps ||| amg.fps]
  match dev.WriteReg t AMG88xxFPSC write with
  | some err => ⟨amg, t ++ [BusOp.write AMG88xxFPSC write], Outcome.panicked err⟩
  | none =>
    ⟨{ amg with fps := fps }, t ++ [BusOp.write AMG88xxFPSC write], Outcome.returned ()⟩

/-! ## Construction -/

/-- The result of `NewAMG8833`: the bus history afterwards and either the
returned pair `(*AMG88xx, error)` or a panic. -/
structure NewResult where
  trace : Trace
  outcome : Outcome (Option AMG88xx × Option GoError)
  deriving DecidableEq, Repr

/-- The function `NewAMG8833`.  The warm-up `time.Sleep` has no effect on the
driver state or the bus and is not modelled. -/
def NewAMG8833 (dev : I2CDevice) (t : Trace) (opts : Opts) : NewResult :=
  match dev.Open t opts.Device AMG88xxADDR with
  | some err => ⟨t, Outcome.returned (none, some err)⟩
  | none =>
    let amg : AMG88xx := ⟨0, 0, 0, 0⟩
    -- enter normal mode
    let s1 := SetMode dev amg t opts.Mode
    match s1.outcome with
    | Outcome.panicked e => ⟨s1.trace, Outcome.panicked e⟩
    | Outcome.returned _ =>
      -- software reset
      let s2 := Reset dev s1.amg s1.trace opts.Reset
      match s2.outcome with
      | Outcome.panicked e => ⟨s2.trace, Outcome.panicked e⟩
      | Outcome.returned _ =>
        -- disable interrupts
        let s3 := DisableInterrupts dev s2.amg s2.trace 0
        match s3.outcome with
        | Outcome.panicked e => ⟨s3.trace, Outcome.panicked e⟩
        | Outcome.returned _ =>
          -- set FPS
          let s4 := SetFPS dev s3.amg s3.trace opts.FPS
          match s4.outcome with
          | Outcome.panicked e => ⟨s4.trace, Outcome.panicked e⟩
          | Outcome.returned _ => ⟨s4.trace, Outcome.returned (some s4.amg, none)⟩

/-! ## Reading a frame -/

/-- The method `signedMag12ToFloat` on a `uint16`.  In Go `&` binds tighter
than `==`, so the test reads `(val & 0x8000) == 1`. -/
def signedMag12ToFloat (val : Nat) : ℚ :=
  -- take first 11 bits as absolute val
  let absVal := val &&& 0x7FF
  if val &&& 0x8000 = 1 then
    0 - (absVal : ℚ)
  else
    (absVal : ℚ)

/-- The register addressed in iteration `i`:
`AMG88xxPixelOffset + byte(i<<1)`, a `byte` sum. -/
def pixelReg (i : Nat) : Nat :=
  (AMG88xxPixelOffset + (i <<< 1) % 256) % 256

/-- The expression `uint16(pixel[0]<<8) | uint16(pixel[0])`.  The operand
`pixel[0]` is a `byte`, so the shift `pixel[0]<<8` is a `byte` shift. -/
def recast (pixel0 : Nat) : Nat :=
  (((pixel0 <<< 8) % 256) % 65536) ||| (pixel0 % 65536)

/-- One iteration of the loop of `ReadPixels`, for index `i`.  The error of
`ReadReg` is discarded, as in the source. -/
def ReadPixels.body (dev : I2CDevice) (st : Trace × List ℚ) (i : Nat) : Trace × List ℚ :=
  let reg := pixelReg i
  let pixel0 := (dev.ReadReg st.1 reg).1 % 256
  let r := recast pixel0
  (st.1 ++ [BusOp.read reg 1],
    st.2.set i (signedMag12ToFloat r * AMG88xxPixelTempConversion))

/-- The method `ReadPixels`: the bus history afterwards and the returned
slice.  The loop `for i := 0; i < 64; i++` is a fold over `0, 1, ..., 63`. -/
def ReadPixels (dev : I2CDevice) (t : Trace) : Trace × List ℚ :=
  (List.range 64).foldl (ReadPixels.body dev) (t, List.replicate 64 0)

/-- A device that accepts everything and answers every read with byte `b`. -/
def constDevice (b : Nat) : I2CDevice where
  Open := fun _ _ _ => none
  WriteReg := fun _ _ _ => none
  ReadReg := fun _ _ => (b, none)

/-- A device on which opening the connection fails with error `e`. -/
def failOpenDevice (e : GoError) : I2CDevice where
  Open := fun _ _ _ => some e
  WriteReg := fun _ _ _ => none
  ReadReg := fun _ _ => (0, none)

/-- A device that rejects, with error `e`, every write to register `r` and
accepts every other transaction. -/
def failRegDevice (r : Nat) (e : GoError) : I2CDevice where
  Open := fun _ _ _ => none
  WriteReg := fun _ reg _ => if reg = r then some e else none
  ReadReg := fun _ _ => (0, none)

/-! ## Notions used to state the properties -/

/-- The reads performed by iterations `0, ..., n - 1` of the loop of
`ReadPixels`. -/
def readsBefore (n : Nat) : Trace :=
  (List.range n).map (fun j => BusOp.read (pixelReg j) 1)

/-- The byte held by `pixel[0]` after the read of iteration `i`, when
`ReadPixels` starts from history `t`. -/
def pixelByte (dev : I2CDevice) (t : Trace) (i : Nat) : Nat :=
  (dev.ReadReg (t ++ readsBefore i) (pixelReg i)).1 % 256

/-- The value stored in `buf[i]` when `pixel[0]` holds `b`. -/
def pixelTemp (b : Nat) : ℚ :=
  signedMag12ToFloat (recast b) * AMG88xxPixelTempConversion

/-! ## Auxiliary lemmas -/

theorem and_0x8000_ne_one (val : Nat) : val &&& 0x8000 ≠ 1 := by
  intro h
  have h0 : (val &&& 0x8000).testBit 0 = true := by rw [h]; decide
  rw [Nat.testBit_and] at h0
  have h1 : (0x8000 : Nat).testBit 0 = false := by decide
  simp [h1] at h0

theorem signedMag12ToFloat_eq (val : Nat) :
    signedMag12ToFloat val = ((val &&& 0x7FF : Nat) : ℚ) := by
  unfold signedMag12ToFloat
  simp [and_0x8000_ne_one]

theorem and_0x7FF_eq_mod (val : Nat) : val &&& 0x7FF = val % 2048 :=
  Nat.and_pow_two_sub_one_eq_mod val 11

theorem recast_eq (b : Nat) (hb : b < 256) : recast b = b := by
  unfold recast
  have h : (b <<< 8) % 256 = 0 := by
    rw [Nat.shiftLeft_eq]; omega
  rw [h]
  simp
  omega

theorem pixelTemp_eq (b : Nat) (hb : b < 256) : pixelTemp b = (b : ℚ) / 4 := by
  unfold pixelTemp
  rw [recast_eq b hb, signedMag12ToFloat_eq, and_0x7FF_eq_mod, Nat.mod_eq_of_lt (by omega)]
  simp [AMG88xxPixelTempConversion]
  ring

theorem pixelReg_eq (i : Nat) (hi : i < 64) : pixelReg i = 0x80 + 2 * i := by
  unfold pixelReg AMG88xxPixelOffset
  rw [Nat.shiftLeft_eq]
  omega

theorem readsBefore_succ (n : Nat) :
    readsBefore (n + 1) = readsBefore n ++ [BusOp.read (pixelReg n) 1] := by
  simp [readsBefore, List.range_succ]

theorem foldl_body (dev : I2CDevice) (t : Trace) (buf : List ℚ) (n : Nat) :
    ((List.range n).foldl (ReadPixels.body dev) (t, buf)).1 = t ++ readsBefore n ∧
    ((List.range n).foldl (ReadPixels.body dev) (t, buf)).2.length = buf.length ∧
    (∀ i, i < n → i < buf.length →
      ((List.range n).foldl (ReadPixels.body dev) (t, buf)).2[i]? =
        some (pixelTemp (pixelByte dev t i))) ∧
    (∀ i, n ≤ i →
      ((List.range n).foldl (ReadPixels.body dev) (t, buf)).2[i]? = buf[i]?) := by
  induction n with
  | zero => simp [readsBefore]
  | succ n ih =>
    obtain ⟨h1, h2, h3, h4⟩ := ih
    rw [List.range_succ, List.foldl_append]
    simp only [List.foldl_cons, List.foldl_nil]
    refine ⟨?_, ?_, ?_, ?_⟩
    · simp [ReadPixels.body, h1, readsBefore_succ]
    · simp [ReadPixels.body, h2]
    · intro i hi hlen
      by_cases hin : i = n
      · subst hin
        simp [ReadPixels.body, h1, h2, hlen, pixelTemp, pixelByte]
      · have hlt : i < n := by omega
        simp only [ReadPixels.body]
        rw [List.getElem?_set_ne (Ne.symm hin)]
        exact h3 i hlt hlen
    · intro i hi
      have hne : n ≠ i := by omega
      simp only [ReadPixels.body]
      rw [List.getElem?_set_ne hne]
      exact h4 i (by omega)

theorem ReadPixels_trace (dev : I2CDevice) (t : Trace) :
    (ReadPixels dev t).1 = t ++ readsBefore 64 :=
  (foldl_body dev t (List.replicate 64 0) 64).1

theorem ReadPixels_length (dev : I2CDevice) (t : Trace) :
    (ReadPixels dev t).2.length = 64 := by
  have h := (foldl_body dev t (List.replicate 64 0) 64).2.1
  simpa [ReadPixels] using h

theorem ReadPixels_getElem? (dev : I2CDevice) (t : Trace) (i : Nat) (hi : i < 64) :
    (ReadPixels dev t).2[i]? = some (pixelTemp (pixelByte dev t i)) :=
  (foldl_body dev t (List.replicate 64 0) 64).2.2.1 i hi (by simpa using hi)

theorem pixelByte_lt (dev : I2CDevice) (t : Trace) (i : Nat) : pixelByte dev t i < 256 := by
  unfold pixelByte
  exact Nat.mod_lt _ (by decide)

theorem pixelByte_constDevice (b : Nat) (t : Trace) (i : Nat) :
    pixelByte (constDevice b) t i = b % 256 := by
  simp [pixelByte, constDevice]

theorem ReadPixels_mem (dev : I2CDevice) (t : Trace) (x : ℚ)
    (hx : x ∈ (ReadPixels dev t).2) :
    ∃ j, j < 64 ∧ x = pixelTemp (pixelByte dev t j) := by
  obtain ⟨j, hj, hxj⟩ := List.getElem_of_mem hx
  have hj64 : j < 64 := by rw [ReadPixels_length] at hj; exact hj
  have hget := ReadPixels_getElem? dev t j hj64
  rw [List.getElem?_eq_getElem hj, hxj] at hget
  exact ⟨j, hj64, Option.some.inj hget⟩

theorem SetMode_trace (dev : I2CDevice) (amg : AMG88xx) (t : Trace) (v : Nat) :
    (SetMode dev amg t v).trace = t ++ [BusOp.write 0x00 [v ||| amg.mode]] := by
  cases h : dev.WriteReg t 0x00 [v ||| amg.mode] <;> simp [SetMode, AMG88xxPCTL, h]

theorem Reset_trace (dev : I2CDevice) (amg : AMG88xx) (t : Trace) (v : Nat) :
    (Reset dev amg t v).trace = t ++ [BusOp.write 0x01 [v ||| amg.reset]] := by
  cases h : dev.WriteReg t 0x01 [v ||| amg.reset] <;> simp [Reset, AMG88xxRST, h]

theorem DisableInterrupts_trace (dev : I2CDevice) (amg : AMG88xx) (t : Trace) (v : Nat) :
    (DisableInterrupts dev amg t v).trace = t ++ [BusOp.write 0x03 [v ||| amg.disable]] := by
  cases h : dev.WriteReg t 0x03 [v ||| amg.disable] <;> simp [DisableInterrupts, AMG88xxINTC, h]

theorem SetFPS_trace (dev : I2CDevice) (amg : AMG88xx) (t : Trace) (v : Nat) :
    (SetFPS dev amg t v).trace = t ++ [BusOp.write 0x02 [v ||| amg.fps]] := by
  cases h : dev.WriteReg t 0x02 [v ||| amg.fps] <;> simp [SetFPS, AMG88xxFPSC, h]

theorem SetMode_ok (dev : I2CDevice) (amg : AMG88xx) (t : Trace) (v : Nat)
    (h : dev.WriteReg t 0x00 [v ||| amg.mode] = none) :
    SetMode dev amg t v =
      ⟨⟨v, amg.reset, amg.disable, amg.fps⟩, t ++ [BusOp.write 0x00 [v ||| amg.mode]],
        Outcome.returned ()⟩ := by
  simp [SetMode, AMG88xxPCTL, h]

theorem Reset_ok (dev : I2CDevice) (amg : AMG88xx) (t : Trace) (v : Nat)
    (h : dev.WriteReg t 0x01 [v ||| amg.reset] = none) :
    Reset dev amg t v =
      ⟨⟨amg.mode, v, amg.disable, amg.fps⟩, t ++ [BusOp.write 0x01 [v ||| amg.reset]],
        Outcome.returned ()⟩ := by
  simp [Reset, AMG88xxRST, h]

theorem DisableInterrupts_ok (dev : I2CDevice) (amg : AMG88xx) (t : Trace) (v : Nat)
    (h : dev.WriteReg t 0x03 [v ||| amg.disable] = none) :
    DisableInterrupts dev amg t v =
      ⟨⟨amg.mode, amg.reset, v, amg.fps⟩, t ++ [BusOp.write 0x03 [v ||| amg.disable]],
        Outcome.returned ()⟩ := by
  simp [DisableInterrupts, AMG88xxINTC, h]

theorem SetFPS_ok (dev : I2CDevice) (amg : AMG88xx) (t : Trace) (v : Nat)
    (h : dev.WriteReg t 0x02 [v ||| amg.fps] = none) :
    SetFPS dev amg t v =
      ⟨⟨amg.mode, amg.reset, amg.disable, v⟩, t ++ [BusOp.write 0x02 [v ||| amg.fps]],
        Outcome.returned ()⟩ := by
  simp [SetFPS, AMG88xxFPSC, h]

theorem SetMode_fail (dev : I2CDevice) (amg : AMG88xx) (t : Trace) (v : Nat) (e : GoError)
    (h : dev.WriteReg t 0x00 [v ||| amg.mode] = some e) :
    SetMode dev amg t v =
      ⟨amg, t ++ [BusOp.write 0x00 [v ||| amg.mode]], Outcome.panicked e⟩ := by
  simp [SetMode, AMG88xxPCTL, h]

theorem Reset_fail (dev : I2CDevice) (amg : AMG88xx) (t : Trace) (v : Nat) (e : GoError)
    (h : dev.WriteReg t 0x01 [v ||| amg.reset] = some e) :
    Reset dev amg t v =
      ⟨amg, t ++ [BusOp.write 0x01 [v ||| amg.reset]], Outcome.panicked e⟩ := by
  simp [Reset, AMG88xxRST, h]

theorem DisableInterrupts_fail (dev : I2CDevice) (amg : AMG88xx) (t : Trace) (v : Nat)
    (e : GoError) (h : dev.WriteReg t 0x03 [v ||| amg.disable] = some e) :
    DisableInterrupts dev amg t v =
      ⟨amg, t ++ [BusOp.write 0x03 [v ||| amg.disable]], Outcome.panicked e⟩ := by
  simp [DisableInterrupts, AMG88xxINTC, h]

theorem SetFPS_fail (dev : I2CDevice) (amg : AMG88xx) (t : Trace) (v : Nat) (e : GoError)
    (h : dev.WriteReg t 0x02 [v ||| amg.fps] = some e) :
    SetFPS dev amg t v =
      ⟨amg, t ++ [BusOp.write 0x02 [v ||| amg.fps]], Outcome.panicked e⟩ := by
  simp [SetFPS, AMG88xxFPSC, h]

theorem NewAMG8833_open_fail (dev : I2CDevice) (t : Trace) (opts : Opts) (e : GoError)
    (hopen : dev.Open t opts.Device 0x69 = some e) :
    NewAMG8833 dev t opts = ⟨t, Outcome.returned (none, some e)⟩ := by
  simp [NewAMG8833, AMG88xxADDR, hopen]

theorem NewAMG8833_open_ok (dev : I2CDevice) (t : Trace) (opts : Opts)
    (hopen : dev.Open t opts.Device 0x69 = none) :
    (∃ e, (NewAMG8833 dev t opts).outcome = Outcome.panicked e) ∨
    (∃ amg, (NewAMG8833 dev t opts).outcome = Outcome.returned (some amg, none)) := by
  unfold NewAMG8833
  simp only [AMG88xxADDR, hopen]
  repeat' split
  all_goals simp

/-! ## Decoding -/

/-- C1: for every 11-bit magnitude `m` in `[0, 2047]`, `signedMag12ToFloat m`
times the pixel conversion factor is exactly `0.25 * m`; the factor is `1/4`,
and for a nonzero magnitude the result differs from what the thermistor
factor `0.0625` would give. -/
theorem signedMag12ToFloat_pixel_exact (m : Nat) (hm : m ≤ 2047) :
    signedMag12ToFloat m * AMG88xxPixelTempConversion = (1 / 4 : ℚ) * (m : ℚ) ∧
    (0 < m →
      signedMag12ToFloat m * AMG88xxPixelTempConversion ≠
        AMG88xxThermistorConversion * (m : ℚ)) := by
  have h : signedMag12ToFloat m * AMG88xxPixelTempConversion = (1 / 4 : ℚ) * (m : ℚ) := by
    rw [signedMag12ToFloat_eq, and_0x7FF_eq_mod, Nat.mod_eq_of_lt (by omega)]
    simp [AMG88xxPixelTempConversion]
    ring
  refine ⟨h, ?_⟩
  intro hpos
  rw [h]
  have hq : (0 : ℚ) < (m : ℚ) := by exact_mod_cast hpos
  simp only [AMG88xxThermistorConversion]
  intro hcontra
  linarith

theorem signedMag12ToFloat_pixel_exact_witness :
    (2047 : Nat) ≤ 2047 ∧
    signedMag12ToFloat 2047 * AMG88xxPixelTempConversion = (1 / 4 : ℚ) * ((2047 : Nat) : ℚ) :=
  ⟨by decide, (signedMag12ToFloat_pixel_exact 2047 (by decide)).1⟩

/-- C2: the sign bit has no effect on decoding.  For every `val` (so for
every 16-bit `val`) the test `(val & 0x8000) == 1` is false, so
`signedMag12ToFloat val` is `val & 0x7FF` and is never negative; and for
every `m` in `[0, 2047]`, `signedMag12ToFloat (m | 0x8000)` equals
`signedMag12ToFloat m`, which is `m`. -/
theorem signedMag12ToFloat_sign_bit_ignored (m val : Nat) (hm : m ≤ 2047) :
    val &&& 0x8000 ≠ 1 ∧
    signedMag12ToFloat (m ||| 0x8000) = signedMag12ToFloat m ∧
    signedMag12ToFloat m = (m : ℚ) ∧
    signedMag12ToFloat val = ((val &&& 0x7FF : Nat) : ℚ) ∧
    0 ≤ signedMag12ToFloat val := by
  have hor : (m ||| 0x8000) &&& 0x7FF = m &&& 0x7FF := by
    rw [Nat.and_distrib_right]
    have : (0x8000 : Nat) &&& 0x7FF = 0 := by decide
    rw [this, Nat.or_zero]
  refine ⟨and_0x8000_ne_one val, ?_, ?_, signedMag12ToFloat_eq val, ?_⟩
  · rw [signedMag12ToFloat_eq, signedMag12ToFloat_eq, hor]
  · rw [signedMag12ToFloat_eq, and_0x7FF_eq_mod, Nat.mod_eq_of_lt (by omega)]
  · rw [signedMag12ToFloat_eq]
    exact Nat.cast_nonneg _

theorem signedMag12ToFloat_sign_bit_ignored_witness :
    (5 : Nat) ≤ 2047 ∧
    (0x8005 : Nat) &&& 0x8000 ≠ 1 ∧
    signedMag12ToFloat (5 ||| 0x8000) = signedMag12ToFloat 5 ∧
    signedMag12ToFloat 5 = ((5 : Nat) : ℚ) ∧
    signedMag12ToFloat 0x8005 = (((0x8005 : Nat) &&& 0x7FF : Nat) : ℚ) ∧
    0 ≤ signedMag12ToFloat 0x8005 :=
  ⟨by decide, signedMag12ToFloat_sign_bit_ignored 5 0x8005 (by decide)⟩

/-! ## Reading a frame -/

/-- C3, evaluated on the code: on a bus answering every pixel read with byte
`0x01`, `recast` yields `0x0001` and not the duplicated word `0x0101`, so
element 0 of the frame is `0.25` and not `0.25 * (0x0101 & 0x7FF) = 64.25`.
On the bus answering `0x10` every element is `4.0`, which is also
`0.25 * (0x1010 & 0x7FF)`: that input does not tell the two apart. -/
theorem ReadPixels_high_octet_dropped :
    recast 0x01 = 0x0001 ∧ ((0x01 <<< 8) ||| 0x01 : Nat) = 0x0101 ∧
    (ReadPixels (constDevice 0x01) []).2[0]? = some (1 / 4 : ℚ) ∧
    (1 / 4 : ℚ) * ((((0x01 <<< 8) ||| 0x01) &&& 0x7FF : Nat) : ℚ) = 257 / 4 ∧
    (ReadPixels (constDevice 0x10) []).2 = List.replicate 64 (4 : ℚ) ∧
    (1 / 4 : ℚ) * ((((0x10 <<< 8) ||| 0x10) &&& 0x7FF : Nat) : ℚ) = 4 := by
  refine ⟨by decide, by decide, ?_, ?_, ?_, ?_⟩
  · rw [ReadPixels_getElem? _ _ 0 (by decide)]
    rw [pixelByte_constDevice, pixelTemp_eq _ (by decide)]
    norm_num
  · have h : (((0x01 <<< 8) ||| 0x01) &&& 0x7FF : Nat) = 257 := by decide
    rw [h]
    norm_num
  · rw [List.eq_replicate_iff]
    refine ⟨ReadPixels_length _ _, ?_⟩
    intro x hx
    obtain ⟨j, _, hxj⟩ := ReadPixels_mem _ _ x hx
    rw [hxj, pixelByte_constDevice, pixelTemp_eq _ (by decide)]
    norm_num
  · have h : (((0x10 <<< 8) ||| 0x10) &&& 0x7FF : Nat) = 16 := by decide
    rw [h]
    norm_num

/-- C4: `ReadPixels` returns exactly 64 values in pixel order.  It performs
exactly 64 one-byte reads and nothing else on the bus; the `i`-th read
(`i = 0..63`, in increasing `i`) is addressed to `0x80 + 2*i`, where the 8-bit
sum `AMG88xxPixelOffset + byte(i<<1)` does not wrap and lies in `0x80..0xFE`;
element `i` of the result is decoded from the byte returned by the `i`-th
read, and two buses returning the same byte in the `i`-th read give the same
element `i`.  This holds whether or not the reads succeed, since `ReadPixels`
discards the error of `ReadReg`. -/
theorem ReadPixels_sixty_four_in_order (dev : I2CDevice) (t : Trace) :
    (ReadPixels dev t).2.length = 64 ∧
    (ReadPixels dev t).1 =
      t ++ (List.range 64).map (fun i => BusOp.read (0x80 + 2 * i) 1) ∧
    (∀ i, i < 64 →
      AMG88xxPixelOffset + (i <<< 1) % 256 < 256 ∧ pixelReg i = 0x80 + 2 * i ∧
      0x80 ≤ pixelReg i ∧ pixelReg i ≤ 0xFE) ∧
    (∀ i, i < 64 →
      (ReadPixels dev t).2[i]? =
        some (signedMag12ToFloat
          (recast
            ((dev.ReadReg
                (t ++ (List.range i).map (fun j => BusOp.read (0x80 + 2 * j) 1))
                (0x80 + 2 * i)).1 % 256)) *
          AMG88xxPixelTempConversion)) ∧
    (∀ (dev' : I2CDevice) i, i < 64 →
      pixelByte dev' t i = pixelByte dev t i →
      (ReadPixels dev' t).2[i]? = (ReadPixels dev t).2[i]?) := by
  have hreads : ∀ n, n ≤ 64 →
      readsBefore n = (List.range n).map (fun i => BusOp.read (0x80 + 2 * i) 1) := by
    intro n hn
    unfold readsBefore
    apply List.map_congr_left
    intro j hj
    rw [pixelReg_eq j (by have := List.mem_range.mp hj; omega)]
  refine ⟨ReadPixels_length dev t, ?_, ?_, ?_, ?_⟩
  · rw [ReadPixels_trace, hreads 64 (le_refl _)]
  · intro i hi
    have h := pixelReg_eq i hi
    refine ⟨?_, h, ?_, ?_⟩
    · unfold AMG88xxPixelOffset
      rw [Nat.shiftLeft_eq]
      omega
    · omega
    · omega
  · intro i hi
    rw [ReadPixels_getElem? dev t i hi]
    unfold pixelTemp pixelByte
    rw [hreads i (by omega), pixelReg_eq i hi]
  · intro dev' i hi hb
    rw [ReadPixels_getElem? dev' t i hi, ReadPixels_getElem? dev t i hi, hb]

theorem ReadPixels_sixty_four_in_order_witness :
    (ReadPixels (constDevice 0x10) []).2.length = 64 ∧
    (ReadPixels (constDevice 0x10) []).1 =
      [] ++ (List.range 64).map (fun i => BusOp.read (0x80 + 2 * i) 1) ∧
    pixelReg 63 = 0xFE ∧
    (ReadPixels (constDevice 0x10) []).2[63]? =
      some (signedMag12ToFloat (recast (0x10 % 256)) * AMG88xxPixelTempConversion) :=
  have h := ReadPixels_sixty_four_in_order (constDevice 0x10) []
  ⟨h.1, h.2.1, (h.2.2.1 63 (by decide)).2.1, h.2.2.2.1 63 (by decide)⟩

/-- C10: for every pixel slot `i < 64` and the byte `b` read for that slot,
the 8-bit shift `pixel[0]<<8` is `0`, the recast word is `b` itself, the mask
and the sign test leave it unchanged, and element `i` of the frame is exactly
`0.25 * b`.  Hence every element of every frame is `0.25 * k` for a natural
`k ≤ 255`: a multiple of `0.25` in `[0, 63.75]`. -/
theorem ReadPixels_elem_quarter_byte (dev : I2CDevice) (t : Trace) (i b : Nat)
    (hi : i < 64) (hb : pixelByte dev t i = b) :
    b < 256 ∧ (b <<< 8) % 256 = 0 ∧ recast b = b ∧
    signedMag12ToFloat (recast b) = (b : ℚ) ∧
    (ReadPixels dev t).2[i]? = some ((1 / 4 : ℚ) * (b : ℚ)) ∧
    (∀ x ∈ (ReadPixels dev t).2,
      (∃ k : Nat, k ≤ 255 ∧ x = (1 / 4 : ℚ) * (k : ℚ)) ∧ 0 ≤ x ∧ x ≤ 63.75) := by
  have hlt : b < 256 := hb ▸ pixelByte_lt dev t i
  refine ⟨hlt, ?_, recast_eq b hlt, ?_, ?_, ?_⟩
  · rw [Nat.shiftLeft_eq]; omega
  · rw [recast_eq b hlt, signedMag12ToFloat_eq, and_0x7FF_eq_mod, Nat.mod_eq_of_lt (by omega)]
  · rw [ReadPixels_getElem? dev t i hi, hb, pixelTemp_eq b hlt]
    congr 1
    ring
  · intro x hx
    obtain ⟨j, _, hx'⟩ := ReadPixels_mem dev t x hx
    have hk := pixelByte_lt dev t j
    rw [pixelTemp_eq _ hk] at hx'
    have hk' : ((pixelByte dev t j : Nat) : ℚ) ≤ 255 := by
      exact_mod_cast Nat.le_of_lt_succ hk
    have hk0 : (0 : ℚ) ≤ ((pixelByte dev t j : Nat) : ℚ) := Nat.cast_nonneg _
    refine ⟨⟨pixelByte dev t j, Nat.le_of_lt_succ hk, ?_⟩, ?_, ?_⟩
    · rw [hx']; ring
    · rw [hx']; positivity
    · rw [hx']; norm_num; linarith

theorem ReadPixels_elem_quarter_byte_witness :
    (63 : Nat) < 64 ∧ pixelByte (constDevice 0xFF) [] 63 = 255 ∧
    (ReadPixels (constDevice 0xFF) []).2[63]? = some ((1 / 4 : ℚ) * ((255 : Nat) : ℚ)) :=
  ⟨by decide, pixelByte_constDevice 0xFF [] 63,
    (ReadPixels_elem_quarter_byte (constDevice 0xFF) [] 63 255 (by decide)
      (pixelByte_constDevice 0xFF [] 63)).2.2.2.2.1⟩

/-! ## Setters -/

/-- C5: for every driver state and every byte `v`, each setter performs
exactly one register write, of the single byte `v | cached` for the cached
value of its own field, to its own register (`SetMode` 0x00, `Reset` 0x01,
`SetFPS` 0x02, `DisableInterrupts` 0x03); when that write succeeds the setter
returns, with `v` itself cached in that field and the other three fields
unchanged. -/
theorem setters_write_or_and_cache_new (dev : I2CDevice) (amg : AMG88xx) (t : Trace)
    (v : Nat) :
    ((SetMode dev amg t v).trace = t ++ [BusOp.write 0x00 [v ||| amg.mode]] ∧
      (dev.WriteReg t 0x00 [v ||| amg.mode] = none →
        (SetMode dev amg t v).outcome = Outcome.returned () ∧
        (SetMode dev amg t v).amg = ⟨v, amg.reset, amg.disable, amg.fps⟩)) ∧
    ((Reset dev amg t v).trace = t ++ [BusOp.write 0x01 [v ||| amg.reset]] ∧
      (dev.WriteReg t 0x01 [v ||| amg.reset] = none →
        (Reset dev amg t v).outcome = Outcome.returned () ∧
        (Reset dev amg t v).amg = ⟨amg.mode, v, amg.disable, amg.fps⟩)) ∧
    ((SetFPS dev amg t v).trace = t ++ [BusOp.write 0x02 [v ||| amg.fps]] ∧
      (dev.WriteReg t 0x02 [v ||| amg.fps] = none →
        (SetFPS dev amg t v).outcome = Outcome.returned () ∧
        (SetFPS dev amg t v).amg = ⟨amg.mode, amg.reset, amg.disable, v⟩)) ∧
    ((DisableInterrupts dev amg t v).trace =
        t ++ [BusOp.write 0x03 [v ||| amg.disable]] ∧
      (dev.WriteReg t 0x03 [v ||| amg.disable] = none →
        (DisableInterrupts dev amg t v).outcome = Outcome.returned () ∧
        (DisableInterrupts dev amg t v).amg = ⟨amg.mode, amg.reset, v, amg.fps⟩)) := by
  refine ⟨⟨SetMode_trace dev amg t v, fun h => ?_⟩, ⟨Reset_trace dev amg t v, fun h => ?_⟩,
    ⟨SetFPS_trace dev amg t v, fun h => ?_⟩, ⟨DisableInterrupts_trace dev amg t v, fun h => ?_⟩⟩
  · rw [SetMode_ok dev amg t v h]; exact ⟨rfl, rfl⟩
  · rw [Reset_ok dev amg t v h]; exact ⟨rfl, rfl⟩
  · rw [SetFPS_ok dev amg t v h]; exact ⟨rfl, rfl⟩
  · rw [DisableInterrupts_ok dev amg t v h]; exact ⟨rfl, rfl⟩

theorem setters_write_or_and_cache_new_witness :
    (SetMode (constDevice 0) ⟨0x01, 0x30, 0x00, 0x01⟩ [] 0x20).trace =
      [] ++ [BusOp.write 0x00 [0x20 ||| 0x01]] ∧
    (SetMode (constDevice 0) ⟨0x01, 0x30, 0x00, 0x01⟩ [] 0x20).outcome = Outcome.returned () ∧
    (SetMode (constDevice 0) ⟨0x01, 0x30, 0x00, 0x01⟩ [] 0x20).amg = ⟨0x20, 0x30, 0x00, 0x01⟩ :=
  have h := (setters_write_or_and_cache_new (constDevice 0) ⟨0x01, 0x30, 0x00, 0x01⟩ [] 0x20).1
  ⟨h.1, h.2 rfl⟩

/-- C6: for all bytes `x` and `y` and every driver state, `SetFPS y` right
after a successful `SetFPS x` writes `y | x` to the frame-rate register 0x02.
Repeating `SetFPS x` writes `x` the second time and leaves the cached state as
it was after the first call.  `SetFPS 0x00` after `SetFPS 0x01` writes `0x01`,
not `0x00`. -/
theorem SetFPS_twice (dev : I2CDevice) (amg : AMG88xx) (t : Trace) (x y : Nat)
    (h : dev.WriteReg t 0x02 [x ||| amg.fps] = none) :
    (SetFPS dev (SetFPS dev amg t x).amg (SetFPS dev amg t x).trace y).trace =
      (SetFPS dev amg t x).trace ++ [BusOp.write 0x02 [y ||| x]] ∧
    (SetFPS dev (SetFPS dev amg t x).amg (SetFPS dev amg t x).trace x).trace =
      (SetFPS dev amg t x).trace ++ [BusOp.write 0x02 [x]] ∧
    (SetFPS dev (SetFPS dev amg t x).amg (SetFPS dev amg t x).trace x).amg =
      (SetFPS dev amg t x).amg ∧
    (x = 0x01 → y = 0x00 →
      (SetFPS dev (SetFPS dev amg t x).amg (SetFPS dev amg t x).trace y).trace =
        (SetFPS dev amg t x).trace ++ [BusOp.write 0x02 [0x01]] ∧
      BusOp.write 0x02 [0x01] ≠ BusOp.write 0x02 [0x00]) := by
  have h1 := SetFPS_ok dev amg t x h
  have hy : (SetFPS dev (SetFPS dev amg t x).amg (SetFPS dev amg t x).trace y).trace =
      (SetFPS dev amg t x).trace ++ [BusOp.write 0x02 [y ||| x]] := by
    rw [SetFPS_trace, h1]
  refine ⟨hy, ?_, ?_, ?_⟩
  · rw [SetFPS_trace, h1]
    simp
  · rw [h1]
    cases hw : dev.WriteReg (t ++ [BusOp.write 0x02 [x ||| amg.fps]]) 0x02 [x ||| x] with
    | none =>
      have h2 := SetFPS_ok dev ⟨amg.mode, amg.reset, amg.disable, x⟩
        (t ++ [BusOp.write 0x02 [x ||| amg.fps]]) x hw
      rw [h2]
    | some e =>
      have h2 := SetFPS_fail dev ⟨amg.mode, amg.reset, amg.disable, x⟩
        (t ++ [BusOp.write 0x02 [x ||| amg.fps]]) x e hw
      rw [h2]
  · intro hx hy0
    refine ⟨?_, by decide⟩
    rw [hy, hx, hy0]
    rfl

theorem SetFPS_twice_witness :
    (constDevice 0).WriteReg [] 0x02 [0x01 ||| (⟨0, 0, 0, 0⟩ : AMG88xx).fps] = none ∧
    (SetFPS (constDevice 0) (SetFPS (constDevice 0) ⟨0, 0, 0, 0⟩ [] 0x01).amg
        (SetFPS (constDevice 0) ⟨0, 0, 0, 0⟩ [] 0x01).trace 0x00).trace =
      (SetFPS (constDevice 0) ⟨0, 0, 0, 0⟩ [] 0x01).trace ++ [BusOp.write 0x02 [0x01]] :=
  ⟨rfl, ((SetFPS_twice (constDevice 0) ⟨0, 0, 0, 0⟩ [] 0x01 0x00 rfl).2.2.2 rfl rfl).1⟩

/-! ## Construction -/

/-- C7: for every `Opts`, when the bus opens and each of the four writes
succeeds, `NewAMG8833` performs exactly four register writes and no read, in
this order: 0x00 with `opts.Mode`, 0x01 with `opts.Reset`, 0x03 with `0`
(whatever `opts.Disable` is), 0x02 with `opts.FPS`; and it returns a nil error
and a driver caching `(opts.Mode, opts.Reset, 0, opts.FPS)`. -/
theorem NewAMG8833_four_writes (dev : I2CDevice) (t : Trace) (opts : Opts)
    (hopen : dev.Open t opts.Device 0x69 = none)
    (h1 : dev.WriteReg t 0x00 [opts.Mode] = none)
    (h2 : dev.WriteReg (t ++ [BusOp.write 0x00 [opts.Mode]]) 0x01 [opts.Reset] = none)
    (h3 : dev.WriteReg
      (t ++ [BusOp.write 0x00 [opts.Mode], BusOp.write 0x01 [opts.Reset]]) 0x03 [0] = none)
    (h4 : dev.WriteReg
      (t ++ [BusOp.write 0x00 [opts.Mode], BusOp.write 0x01 [opts.Reset],
        BusOp.write 0x03 [0]]) 0x02 [opts.FPS] = none) :
    NewAMG8833 dev t opts =
      ⟨t ++ [BusOp.write 0x00 [opts.Mode], BusOp.write 0x01 [opts.Reset],
          BusOp.write 0x03 [0], BusOp.write 0x02 [opts.FPS]],
        Outcome.returned (some ⟨opts.Mode, opts.Reset, 0, opts.FPS⟩, none)⟩ := by
  simp [NewAMG8833, SetMode, Reset, DisableInterrupts, SetFPS, AMG88xxADDR, AMG88xxPCTL,
    AMG88xxRST, AMG88xxINTC, AMG88xxFPSC, hopen, h1, h2, h3, h4]

theorem NewAMG8833_four_writes_witness :
    NewAMG8833 (constDevice 0) [] ⟨"/dev/i2c-1", 0x00, 0x3F, 0x01, 0x00⟩ =
      ⟨[] ++ [BusOp.write 0x00 [0x00], BusOp.write 0x01 [0x3F], BusOp.write 0x03 [0],
          BusOp.write 0x02 [0x00]],
        Outcome.returned (some ⟨0x00, 0x3F, 0, 0x00⟩, none)⟩ :=
  NewAMG8833_four_writes (constDevice 0) [] ⟨"/dev/i2c-1", 0x00, 0x3F, 0x01, 0x00⟩
    rfl rfl rfl rfl rfl

/-- C8: if opening the connection (device `opts.Device`, address 0x69) fails
with an error, `NewAMG8833` returns that error with a nil driver and performs
no register write and no register read; and whenever `NewAMG8833` returns a
non-nil error, opening the connection failed with that error. -/
theorem NewAMG8833_error_iff_open_fails (dev : I2CDevice) (t : Trace) (opts : Opts) :
    (∀ e, dev.Open t opts.Device 0x69 = some e →
      NewAMG8833 dev t opts = ⟨t, Outcome.returned (none, some e)⟩) ∧
    (∀ a e, (NewAMG8833 dev t opts).outcome = Outcome.returned (a, some e) →
      dev.Open t opts.Device 0x69 = some e ∧ a = none ∧
      (NewAMG8833 dev t opts).trace = t) := by
  refine ⟨fun e h => NewAMG8833_open_fail dev t opts e h, ?_⟩
  intro a e hret
  cases hopen : dev.Open t opts.Device 0x69 with
  | none =>
    rcases NewAMG8833_open_ok dev t opts hopen with ⟨e', he'⟩ | ⟨amg, hamg⟩
    · rw [he'] at hret
      cases hret
    · rw [hamg] at hret
      cases hret
  | some e' =>
    have h := NewAMG8833_open_fail dev t opts e' hopen
    rw [h] at hret ⊢
    simp only [Outcome.returned.injEq, Prod.mk.injEq] at hret
    obtain ⟨ha, he⟩ := hret
    refine ⟨?_, ha.symm, rfl⟩
    rw [he]

theorem NewAMG8833_error_iff_open_fails_witness :
    NewAMG8833 (failOpenDevice "no such device") [BusOp.read 0x80 1]
        ⟨"/dev/i2c-1", 0x00, 0x3F, 0x00, 0x00⟩ =
      ⟨[BusOp.read 0x80 1], Outcome.returned (none, some "no such device")⟩ :=
  (NewAMG8833_error_iff_open_fails (failOpenDevice "no such device") [BusOp.read 0x80 1]
    ⟨"/dev/i2c-1", 0x00, 0x3F, 0x00, 0x00⟩).1 "no such device" rfl

/-- C9: a bus write failure is fatal.  Each of `SetMode`, `Reset`,
`DisableInterrupts` and `SetFPS` returns normally if and only if its register
write succeeds; when the write fails with `e` the setter panics with `e` and
the driver struct is unchanged.  Inside `NewAMG8833`, when the connection
opens and the `k`-th setup write is the first to fail, `NewAMG8833` panics
with that error after exactly `k` writes: no later setup write is attempted
and nothing is returned. -/
theorem write_failure_is_fatal (dev : I2CDevice) (amg : AMG88xx) (t : Trace) (v : Nat)
    (opts : Opts) (e : GoError) :
    (((SetMode dev amg t v).outcome = Outcome.returned () ↔
        dev.WriteReg t 0x00 [v ||| amg.mode] = none) ∧
      (dev.WriteReg t 0x00 [v ||| amg.mode] = some e →
        SetMode dev amg t v =
          ⟨amg, t ++ [BusOp.write 0x00 [v ||| amg.mode]], Outcome.panicked e⟩)) ∧
    (((Reset dev amg t v).outcome = Outcome.returned () ↔
        dev.WriteReg t 0x01 [v ||| amg.reset] = none) ∧
      (dev.WriteReg t 0x01 [v ||| amg.reset] = some e →
        Reset dev amg t v =
          ⟨amg, t ++ [BusOp.write 0x01 [v ||| amg.reset]], Outcome.panicked e⟩)) ∧
    (((DisableInterrupts dev amg t v).outcome = Outcome.returned () ↔
        dev.WriteReg t 0x03 [v ||| amg.disable] = none) ∧
      (dev.WriteReg t 0x03 [v ||| amg.disable] = some e →
        DisableInterrupts dev amg t v =
          ⟨amg, t ++ [BusOp.write 0x03 [v ||| amg.disable]], Outcome.panicked e⟩)) ∧
    (((SetFPS dev amg t v).outcome = Outcome.returned () ↔
        dev.WriteReg t 0x02 [v ||| amg.fps] = none) ∧
      (dev.WriteReg t 0x02 [v ||| amg.fps] = some e →
        SetFPS dev amg t v =
          ⟨amg, t ++ [BusOp.write 0x02 [v ||| amg.fps]], Outcome.panicked e⟩)) ∧
    (dev.Open t opts.Device 0x69 = none →
      (dev.WriteReg t 0x00 [opts.Mode] = some e →
        NewAMG8833 dev t opts =
          ⟨t ++ [BusOp.write 0x00 [opts.Mode]], Outcome.panicked e⟩) ∧
      (dev.WriteReg t 0x00 [opts.Mode] = none →
        dev.WriteReg (t ++ [BusOp.write 0x00 [opts.Mode]]) 0x01 [opts.Reset] = some e →
        NewAMG8833 dev t opts =
          ⟨t ++ [BusOp.write 0x00 [opts.Mode], BusOp.write 0x01 [opts.Reset]],
            Outcome.panicked e⟩) ∧
      (dev.WriteReg t 0x00 [opts.Mode] = none →
        dev.WriteReg (t ++ [BusOp.write 0x00 [opts.Mode]]) 0x01 [opts.Reset] = none →
        dev.WriteReg (t ++ [BusOp.write 0x00 [opts.Mode], BusOp.write 0x01 [opts.Reset]])
          0x03 [0] = some e →
        NewAMG8833 dev t opts =
          ⟨t ++ [BusOp.write 0x00 [opts.Mode], BusOp.write 0x01 [opts.Reset],
              BusOp.write 0x03 [0]],
            Outcome.panicked e⟩) ∧
      (dev.WriteReg t 0x00 [opts.Mode] = none →
        dev.WriteReg (t ++ [BusOp.write 0x00 [opts.Mode]]) 0x01 [opts.Reset] = none →
        dev.WriteReg (t ++ [BusOp.write 0x00 [opts.Mode], BusOp.write 0x01 [opts.Reset]])
          0x03 [0] = none →
        dev.WriteReg
          (t ++ [BusOp.write 0x00 [opts.Mode], BusOp.write 0x01 [opts.Reset],
            BusOp.write 0x03 [0]]) 0x02 [opts.FPS] = some e →
        NewAMG8833 dev t opts =
          ⟨t ++ [BusOp.write 0x00 [opts.Mode], BusOp.write 0x01 [opts.Reset],
              BusOp.write 0x03 [0], BusOp.write 0x02 [opts.FPS]],
            Outcome.panicked e⟩)) := by
  refine ⟨⟨?_, SetMode_fail dev amg t v e⟩, ⟨?_, Reset_fail dev amg t v e⟩,
    ⟨?_, DisableInterrupts_fail dev amg t v e⟩, ⟨?_, SetFPS_fail dev amg t v e⟩, ?_⟩
  · cases h : dev.WriteReg t 0x00 [v ||| amg.mode] with
    | none => simp [SetMode_ok dev amg t v h]
    | some e' => simp [SetMode_fail dev amg t v e' h]
  · cases h : dev.WriteReg t 0x01 [v ||| amg.reset] with
    | none => simp [Reset_ok dev amg t v h]
    | some e' => simp [Reset_fail dev amg t v e' h]
  · cases h : dev.WriteReg t 0x03 [v ||| amg.disable] with
    | none => simp [DisableInterrupts_ok dev amg t v h]
    | some e' => simp [DisableInterrupts_fail dev amg t v e' h]
  · cases h : dev.WriteReg t 0x02 [v ||| amg.fps] with
    | none => simp [SetFPS_ok dev amg t v h]
    | some e' => simp [SetFPS_fail dev amg t v e' h]
  · intro hopen
    refine ⟨?_, ?_, ?_, ?_⟩
    · intro h1
      simp [NewAMG8833, SetMode, AMG88xxADDR, AMG88xxPCTL, hopen, h1]
    · intro h1 h2
      simp [NewAMG8833, SetMode, Reset, AMG88xxADDR, AMG88xxPCTL, AMG88xxRST, hopen, h1, h2]
    · intro h1 h2 h3
      simp [NewAMG8833, SetMode, Reset, DisableInterrupts, AMG88xxADDR, AMG88xxPCTL,
        AMG88xxRST, AMG88xxINTC, hopen, h1, h2, h3]
    · intro h1 h2 h3 h4
      simp [NewAMG8833, SetMode, Reset, DisableInterrupts, SetFPS, AMG88xxADDR, AMG88xxPCTL,
        AMG88xxRST, AMG88xxINTC, AMG88xxFPSC, hopen, h1, h2, h3, h4]

theorem write_failure_is_fatal_witness :
    NewAMG8833 (failRegDevice 0x03 "EIO") [] ⟨"/dev/i2c-1", 0x00, 0x3F, 0x00, 0x01⟩ =
      ⟨[] ++ [BusOp.write 0x00 [0x00], BusOp.write 0x01 [0x3F], BusOp.write 0x03 [0]],
        Outcome.panicked "EIO"⟩ ∧
    DisableInterrupts (failRegDevice 0x03 "EIO") ⟨0x00, 0x3F, 0x01, 0x00⟩ [] 0x00 =
      ⟨⟨0x00, 0x3F, 0x01, 0x00⟩, [] ++ [BusOp.write 0x03 [0x00 ||| 0x01]],
        Outcome.panicked "EIO"⟩ :=
  have h := write_failure_is_fatal (failRegDevice 0x03 "EIO") ⟨0x00, 0x3F, 0x01, 0x00⟩ []
    0x00 ⟨"/dev/i2c-1", 0x00, 0x3F, 0x00, 0x01⟩ "EIO"
  ⟨(h.2.2.2.2 rfl).2.2.1 rfl rfl rfl, h.2.2.1.2 rfl⟩

end AMG8833
